import Mathlib

/-!
Verification development for the voiceclone real-time TTS streaming pipeline.

Each namespace shallowly embeds one component of the source:
- `Mp3Worker`  : client Frame Batcher (src/client/src/workers/mp3-worker.ts)
- `UseTts`     : client playback hook, stop/speak logic (src/client/src/hooks/use-tts.ts)
- `SimpleTts`  : direct MP3 relay mode (src/server/services/tts/SimpleTtsService.ts)
- `WsTts`      : transcoding-bridge mode (src/server/services/tts/index.ts,
                 class WebSocketTtsService)
- `Registry`   : connection registries (src/server/websocket.ts activeConnections,
                 and WebSocketTtsService.registerClient sessionSockets)
- `WsServer`   : websocket.ts message handlers (init / speak)

Byte buffers (Uint8Array, Buffer) are modelled as `List Nat`; concatenation of
buffers is `List.flatten`.  Event-loop callbacks become explicit events folded
over a state; outbound messages are accumulated in list-valued state fields.
-/

namespace Mp3Worker

/-- Worker state of mp3-worker.ts: the module-level mutable variables, plus
`emitted`, the list of batches posted to the main thread (in `postMessage`
order).  `flushTimer` records whether a `setTimeout` flush is pending. -/
structure WorkerState where
  appendTargetMs : Nat
  appendMaxBytes : Nat
  urgentMode : Bool
  batchChunks : List (List Nat)
  batchBytes : Nat
  flushTimer : Bool
  emitted : List (List Nat)
  deriving Repr, DecidableEq

/-- Initial module state of the worker (280ms / 80KB, empty accumulator). -/
def initWorker : WorkerState :=
  { appendTargetMs := 280
    appendMaxBytes := 80 * 1024
    urgentMode := false
    batchChunks := []
    batchBytes := 0
    flushTimer := false
    emitted := [] }

/-- Function `flushBatch()`: if the accumulator is empty, return (the pending timer is
left untouched, as in the source); otherwise clear the timer, post the
concatenation of the accumulated chunks as one batch, and reset the
accumulator. -/
def flushBatch (s : WorkerState) : WorkerState :=
  if s.batchChunks = [] then s
  else
    { s with
      flushTimer := false
      emitted := s.emitted ++ [s.batchChunks.flatten]
      batchChunks := []
      batchBytes := 0 }

/-- Function `addChunkToBatch(chunk)`: push the chunk, add its byte length, and flush
immediately when the accumulated size reaches `APPEND_MAX_BYTES`. -/
def addChunkToBatch (s : WorkerState) (chunk : List Nat) : WorkerState :=
  let s1 := { s with
    batchChunks := s.batchChunks ++ [chunk]
    batchBytes := s.batchBytes + chunk.length }
  if s1.appendMaxBytes ≤ s1.batchBytes then flushBatch s1 else s1

/-- Function `scheduleFlush()`: arm the flush timer unless one is already pending. -/
def scheduleFlush (s : WorkerState) : WorkerState :=
  if s.flushTimer then s else { s with flushTimer := true }

/-- Events delivered to the worker, per `self.onmessage` plus the timer
callback.  The claim's interleavings are chunk arrivals, timer fires, explicit
flushes and urgent-mode toggles; the `reset` message is outside the claim. -/
inductive WEvent where
  | chunk (bytes : List Nat)
  | flushMsg
  | timerFire
  | urgent (enabled : Bool) (targetMs maxBytes : Nat)
  deriving Repr, DecidableEq

/-- One step of the worker.  A `chunk` message batches then schedules a flush;
the timer callback first clears the pending-timer flag and then flushes (it can
only fire while the flag is set, so firing is guarded on `flushTimer`);
`urgent_mode` swaps the thresholds, using the JS `targetMs || 100` /
`maxBytes || 32*1024` falsy defaults. -/
def workerStep (s : WorkerState) : WEvent → WorkerState
  | .chunk bytes => scheduleFlush (addChunkToBatch s bytes)
  | .flushMsg => flushBatch s
  | .timerFire => if s.flushTimer then flushBatch { s with flushTimer := false } else s
  | .urgent enabled targetMs maxBytes =>
      if enabled then
        { s with
          urgentMode := true
          appendTargetMs := if targetMs = 0 then 100 else targetMs
          appendMaxBytes := if maxBytes = 0 then 32 * 1024 else maxBytes }
      else
        { s with urgentMode := false, appendTargetMs := 280, appendMaxBytes := 80 * 1024 }

/-- Run a sequence of worker events. -/
def runWorker (s : WorkerState) (es : List WEvent) : WorkerState :=
  es.foldl workerStep s

/-- The fragment bytes delivered by an event (empty for non-chunk events). -/
def eventInput : WEvent → List Nat
  | .chunk bytes => bytes
  | _ => []

/-- All input bytes of an event sequence, in arrival order. -/
def inputBytes (es : List WEvent) : List Nat :=
  (es.map eventInput).flatten

/-- Bytes accounted for by a state: emitted batches then the pending accumulator. -/
def accounted (s : WorkerState) : List Nat :=
  s.emitted.flatten ++ s.batchChunks.flatten

theorem flushBatch_accounted (s : WorkerState) : accounted (flushBatch s) = accounted s := by
  unfold flushBatch accounted
  by_cases h : s.batchChunks = [] <;> simp [h]

theorem addChunkToBatch_accounted (s : WorkerState) (c : List Nat) :
    accounted (addChunkToBatch s c) = accounted s ++ c := by
  unfold addChunkToBatch
  by_cases h : (s.appendMaxBytes ≤ s.batchBytes + c.length)
  · simp only [h, if_pos, flushBatch_accounted]
    simp [accounted]
  · simp only [h]
    simp [accounted]

theorem workerStep_accounted (s : WorkerState) (e : WEvent) :
    accounted (workerStep s e) = accounted s ++ eventInput e := by
  cases e with
  | chunk bytes =>
      simp only [workerStep, eventInput]
      have h1 : accounted (scheduleFlush (addChunkToBatch s bytes))
          = accounted (addChunkToBatch s bytes) := by
        unfold scheduleFlush accounted
        by_cases h : (addChunkToBatch s bytes).flushTimer <;> simp [h]
      rw [h1, addChunkToBatch_accounted]
  | flushMsg => simp [workerStep, eventInput, flushBatch_accounted]
  | timerFire =>
      simp only [workerStep, eventInput]
      by_cases h : s.flushTimer
      · simp only [h, if_pos]
        have : accounted (flushBatch { s with flushTimer := false })
            = accounted { s with flushTimer := false } := flushBatch_accounted _
        rw [this]; simp [accounted]
      · simp [h]
  | urgent enabled t m =>
      simp only [workerStep, eventInput]
      by_cases h : enabled <;> simp [h, accounted]

theorem runWorker_accounted (es : List WEvent) (s : WorkerState) :
    accounted (runWorker s es) = accounted s ++ inputBytes es := by
  induction es generalizing s with
  | nil => simp [runWorker, inputBytes]
  | cons e es ih =>
      simp only [runWorker, List.foldl_cons, inputBytes, List.map_cons, List.flatten_cons]
      rw [show (es.foldl workerStep (workerStep s e)) = runWorker (workerStep s e) es from rfl]
      rw [ih, workerStep_accounted]
      simp [inputBytes, List.append_assoc]

theorem flushBatch_empties (s : WorkerState) : (flushBatch s).batchChunks = [] := by
  unfold flushBatch
  by_cases h : s.batchChunks = [] <;> simp [h]

/-- C1: For every finite sequence of audio fragments delivered to the Frame
Batcher, interleaved arbitrarily with size-triggered flushes, timer-triggered
flushes, explicit flushes and urgent-mode toggles, once the final explicit
flush has run, the byte concatenation of all emitted batches in emission order
equals the byte concatenation of the input fragments in arrival order: no
bytes are dropped, duplicated, or reordered. -/
theorem C1_frame_batcher_lossless (es : List WEvent) :
    (runWorker initWorker (es ++ [WEvent.flushMsg])).emitted.flatten = inputBytes es := by
  have hrun : runWorker initWorker (es ++ [WEvent.flushMsg])
      = flushBatch (runWorker initWorker es) := by
    simp [runWorker, List.foldl_append, workerStep]
  have hacc := runWorker_accounted es initWorker
  have hinit : accounted initWorker = [] := by simp [accounted, initWorker]
  rw [hinit] at hacc
  simp only [List.nil_append] at hacc
  have hflush : accounted (flushBatch (runWorker initWorker es))
      = accounted (runWorker initWorker es) := flushBatch_accounted _
  have hempty : (flushBatch (runWorker initWorker es)).batchChunks = [] :=
    flushBatch_empties _
  rw [hrun]
  have : accounted (flushBatch (runWorker initWorker es))
      = (flushBatch (runWorker initWorker es)).emitted.flatten := by
    unfold accounted
    rw [hempty]; simp
  rw [← this, hflush, hacc]

end Mp3Worker

namespace UseTts

/-- Client playback state of use-tts.ts, restricted to the refs that govern
audio delivery: the sticky `stoppedRef`, `startedRef`, `taskCompleteRef`, the
`appendQueueRef` of batches awaiting a SourceBuffer append, whether a
SourceBuffer exists yet (`sourceBufferRef !== null`), and `sinkAppended`, the
cumulative count of bytes handed to `SourceBuffer.appendBuffer` (the media
sink). -/
structure ClientState where
  stopped : Bool
  started : Bool
  taskComplete : Bool
  haveSourceBuffer : Bool
  appendQueue : List (List Nat)
  sinkAppended : Nat
  deriving Repr, DecidableEq

/-- Function `pumpAppendQueue()`: append the oldest queued batch to the media sink (one
outstanding append at a time; the updateend event re-pumps, modelled by
separate pump events). -/
def pumpAppendQueue (s : ClientState) : ClientState :=
  if s.haveSourceBuffer then
    match s.appendQueue with
    | [] => s
    | batch :: rest =>
        { s with appendQueue := rest, sinkAppended := s.sinkAppended + batch.length }
  else s

/-- The `ws.onmessage` binary branch: empty payloads are ignored; then the
`stoppedRef` guard discards the chunk before anything is queued; the first
chunk creates the SourceBuffer (container sniffing) and is queued; later
chunks are queued; either way `pumpAppendQueue` runs. -/
def onBinaryFrame (s : ClientState) (bytes : List Nat) : ClientState :=
  if bytes = [] then s
  else if s.stopped then s
  else if ¬ s.haveSourceBuffer then
    pumpAppendQueue { s with haveSourceBuffer := true, appendQueue := s.appendQueue ++ [bytes] }
  else
    pumpAppendQueue { s with appendQueue := s.appendQueue ++ [bytes] }

/-- The worker `batch` message handler in `initWorker`: the `stoppedRef` guard
discards the batch on arrival; otherwise it is queued and the queue pumped. -/
def onWorkerBatch (s : ClientState) (bytes : List Nat) : ClientState :=
  if s.stopped then s
  else pumpAppendQueue { s with appendQueue := s.appendQueue ++ [bytes] }

/-- Function `stop()`: set the sticky stopped flag, clear the pending queue and the
task-complete flag, and reset `startedRef` (pausing and buffer trimming have
no effect on `sinkAppended`, which counts bytes ever appended). -/
def stop (s : ClientState) : ClientState :=
  { s with stopped := true, appendQueue := [], taskComplete := false, started := false }

/-- The websocket branch of `speak()`: clears the stopped flag and resets the
queue and per-request flags before sending the speak message. -/
def speak (s : ClientState) : ClientState :=
  { s with stopped := false, appendQueue := [], started := false, taskComplete := false }

/-- Client events relevant to cancellation: incoming binary socket frames,
batches emitted by the worker, pump wakeups (updateend / watchdog), `stop()`
and `speak()` calls. -/
inductive CEvent where
  | binary (bytes : List Nat)
  | workerBatch (bytes : List Nat)
  | pump
  | stopCall
  | speakCall
  deriving Repr, DecidableEq

def clientStep (s : ClientState) : CEvent → ClientState
  | .binary bytes => onBinaryFrame s bytes
  | .workerBatch bytes => onWorkerBatch s bytes
  | .pump => pumpAppendQueue s
  | .stopCall => stop s
  | .speakCall => speak s

def runClient (s : ClientState) (es : List CEvent) : ClientState :=
  es.foldl clientStep s

theorem clientStep_stopped (s : ClientState) (e : CEvent)
    (hstop : s.stopped = true) (hq : s.appendQueue = []) (he : e ≠ CEvent.speakCall) :
    (clientStep s e).stopped = true ∧ (clientStep s e).appendQueue = []
      ∧ (clientStep s e).sinkAppended = s.sinkAppended := by
  cases e with
  | binary bytes =>
      simp only [clientStep, onBinaryFrame, hstop]
      by_cases hb : bytes = [] <;> simp [hb, hstop, hq]
  | workerBatch bytes => simp [clientStep, onWorkerBatch, hstop, hq]
  | pump =>
      simp only [clientStep, pumpAppendQueue, hq]
      by_cases hsb : s.haveSourceBuffer <;> simp [hsb, hstop, hq]
  | stopCall => simp [clientStep, stop, hstop]
  | speakCall => exact absurd rfl he

/-- C3: after `stop()` is called, while no new `speak()` call occurs, every
subsequently arriving audio payload — binary socket frame or worker batch —
is discarded at its arrival point, and zero further bytes are appended to the
media sink; a `speak()` call clears the sticky stopped flag. -/
theorem C3_stop_discards_audio (s : ClientState) (es : List CEvent)
    (hnospeak : ∀ e ∈ es, e ≠ CEvent.speakCall) :
    (runClient (stop s) es).sinkAppended = s.sinkAppended
      ∧ (runClient (stop s) es).stopped = true
      ∧ (speak (runClient (stop s) es)).stopped = false := by
  have key : ∀ (t : ClientState) (l : List CEvent), t.stopped = true → t.appendQueue = [] →
      (∀ e ∈ l, e ≠ CEvent.speakCall) →
      (runClient t l).sinkAppended = t.sinkAppended ∧ (runClient t l).stopped = true := by
    intro t l
    induction l generalizing t with
    | nil => intro h1 h2 _; exact ⟨rfl, h1⟩
    | cons e l ih =>
        intro h1 h2 h3
        have he : e ≠ CEvent.speakCall := h3 e (by simp)
        obtain ⟨p1, p2, p3⟩ := clientStep_stopped t e h1 h2 he
        have := ih (clientStep t e) p1 p2 (fun x hx => h3 x (by simp [hx]))
        refine ⟨?_, this.2⟩
        rw [show runClient t (e :: l) = runClient (clientStep t e) l from rfl, this.1, p3]
  have h1 : (stop s).stopped = true := rfl
  have h2 : (stop s).appendQueue = [] := rfl
  have h3 : (stop s).sinkAppended = s.sinkAppended := rfl
  obtain ⟨q1, q2⟩ := key (stop s) es h1 h2 hnospeak
  refine ⟨by rw [q1, h3], q2, rfl⟩

/-- Witness for C3 at a concrete trace: stop, then two arriving fragments. -/
theorem C3_stop_discards_audio_witness :
    (runClient (stop (⟨false, true, false, true, [], 17⟩ : ClientState))
      [CEvent.binary [1, 2, 3], CEvent.workerBatch [4, 5], CEvent.pump]).sinkAppended = 17 :=
  (C3_stop_discards_audio (⟨false, true, false, true, [], 17⟩ : ClientState)
    [CEvent.binary [1, 2, 3], CEvent.workerBatch [4, 5], CEvent.pump]
    (by intro e he; fin_cases he <;> simp)).1

end UseTts

/-- A parsed provider control message (the JSON the MiniMax socket delivers).
`hasData` models the truthiness of `message.data`; `audio` models
`message.data.audio` already hex-decoded to bytes (the hex string has two
characters per byte, so its character length is twice `audio.length`);
`statusCode`/`statusMsg` model `message.base_resp?.status_code` and
`...status_msg`, with `none` for an absent field. -/
structure ProviderMsg where
  event : String
  hasData : Bool
  audio : Option (List Nat)
  isFinal : Bool
  statusCode : Option Int
  statusMsg : Option String
  deriving Repr, DecidableEq

namespace SimpleTts

/-- Constant `FRAME_CHUNK_SIZE` in SimpleTtsService.ts: 6KB frame-boundary units. -/
def FRAME_CHUNK_SIZE : Nat := 6144

/-- Session state of one `SimpleTtsService.synthesize` call: the closure
variables `isCompleted`, `frameBuffer`, the client socket state, the binary
frames sent to the client (in order), whether `task_complete` was sent,
whether the provider socket was closed, the promise outcome (`none` while
pending), and the control events sent to the provider. -/
structure SimpleState where
  clientOpen : Bool
  isCompleted : Bool
  frameBuffer : List Nat
  sentFrames : List (List Nat)
  sentTaskComplete : Bool
  minimaxClosed : Bool
  outcome : Option (Except String Unit)
  toProvider : List String
  deriving Repr

/-- Fresh session state at the start of `synthesize` (client socket open). -/
def simpleInit : SimpleState :=
  { clientOpen := true
    isCompleted := false
    frameBuffer := []
    sentFrames := []
    sentTaskComplete := false
    minimaxClosed := false
    outcome := none
    toProvider := [] }

/-- The `while (frameBuffer.length >= FRAME_CHUNK_SIZE && clientWs.readyState
=== OPEN)` loop: repeatedly slice off and send a 6144-byte chunk.  Returns the
remaining buffer and the chunks sent, in order. -/
def drainFrames (buf : List Nat) : List Nat × List (List Nat) :=
  if h : FRAME_CHUNK_SIZE ≤ buf.length then
    let r := drainFrames (buf.drop FRAME_CHUNK_SIZE)
    (r.1, buf.take FRAME_CHUNK_SIZE :: r.2)
  else (buf, [])
termination_by buf.length
decreasing_by
  simp only [List.length_drop]
  have : 0 < FRAME_CHUNK_SIZE := by decide
  omega

/-- The `task_continued`-with-audio branch: append the decoded bytes to
`frameBuffer`, then run the chunking loop (which only runs while the client
socket is open). -/
def simpleAddAudio (s : SimpleState) (bytes : List Nat) : SimpleState :=
  let buf := s.frameBuffer ++ bytes
  if s.clientOpen then
    let r := drainFrames buf
    { s with frameBuffer := r.1, sentFrames := s.sentFrames ++ r.2 }
  else { s with frameBuffer := buf }

/-- The `message.is_final` branch: send the remaining buffer (if any, and only
while the client socket is open) as one last frame, send `task_complete`,
close the provider socket, and resolve the promise under the `isCompleted`
guard. -/
def simpleFinal (s : SimpleState) : SimpleState :=
  let s1 := if s.frameBuffer ≠ [] ∧ s.clientOpen then
      { s with sentFrames := s.sentFrames ++ [s.frameBuffer], frameBuffer := [] }
    else s
  let s2 := if s1.clientOpen then { s1 with sentTaskComplete := true } else s1
  let s3 := { s2 with minimaxClosed := true }
  if s3.isCompleted then s3 else { s3 with isCompleted := true, outcome := some (Except.ok ()) }

/-- The provider-socket `message` handler of `SimpleTtsService.synthesize`.
`connected_success` and `task_started` return early after replying to the
provider; otherwise the audio branch runs (no early return in the source) and
then the `is_final` branch.  No other message — in particular `task_failed`
or a non-zero `base_resp.status_code` — is inspected. -/
def simpleHandleMessage (s : SimpleState) (m : ProviderMsg) : SimpleState :=
  if m.event = "connected_success" then { s with toProvider := s.toProvider ++ ["task_start"] }
  else if m.event = "task_started" then { s with toProvider := s.toProvider ++ ["task_continue"] }
  else
    let s1 := match m.audio with
      | some bytes => if m.event = "task_continued" then simpleAddAudio s bytes else s
      | none => s
    if m.isFinal then simpleFinal s1 else s1

/-- The provider-socket `error` handler: reject once under the guard. -/
def simpleError (s : SimpleState) (err : String) : SimpleState :=
  if s.isCompleted then s
  else { s with isCompleted := true, outcome := some (Except.error err) }

/-- The 30-second `setTimeout` callback: under the guard, close the provider
socket and reject with the fixed timeout message. -/
def simpleTimeout (s : SimpleState) : SimpleState :=
  if s.isCompleted then s
  else { s with isCompleted := true, minimaxClosed := true,
                outcome := some (Except.error "TTS 타임아웃") }

/-- Run a list of provider messages through the handler. -/
def runSimple (s : SimpleState) (ms : List ProviderMsg) : SimpleState :=
  ms.foldl simpleHandleMessage s

/-- A `task_continued` message carrying (already hex-decoded) audio bytes. -/
def audioMsg (bytes : List Nat) : ProviderMsg :=
  ⟨"task_continued", true, some bytes, false, some 0, none⟩

/-- The final `task_continued` message carrying only the is-final flag. -/
def finalMsg : ProviderMsg :=
  ⟨"task_continued", true, none, true, some 0, none⟩

/-- A `task_failed` provider message with non-zero status code 1004. -/
def failMsg1004 : ProviderMsg :=
  ⟨"task_failed", false, none, false, some 1004, some "invalid api key"⟩

/-- C4, counterexample: in the direct-relay service actually wired to the
client socket (`SimpleTtsService`, used by websocket.ts), a provider message
with `base_resp.status_code = 1004` is completely ignored — the session state
is unchanged and the promise is neither resolved nor rejected — and the
session can only die via the 30-second timeout, whose rejection message is
the fixed string "TTS 타임아웃", not the provider status message. -/
theorem C4_counterexample :
    simpleHandleMessage simpleInit failMsg1004 = simpleInit
      ∧ (simpleHandleMessage simpleInit failMsg1004).outcome = none
      ∧ (simpleTimeout (simpleHandleMessage simpleInit failMsg1004)).outcome
          = some (Except.error "TTS 타임아웃") := by
  refine ⟨?_, ?_, ?_⟩ <;> rfl

theorem drainFrames_flatten (buf : List Nat) :
    (drainFrames buf).2.flatten ++ (drainFrames buf).1 = buf := by
  induction buf using drainFrames.induct with
  | case1 buf h ih =>
      rw [drainFrames]
      simp only [dif_pos h]
      simp only [List.flatten_cons, List.append_assoc]
      rw [ih]
      exact List.take_append_drop _ _
  | case2 buf h =>
      rw [drainFrames]
      simp [dif_neg h]

theorem drainFrames_chunk_size (buf : List Nat) :
    ∀ c ∈ (drainFrames buf).2, c.length = FRAME_CHUNK_SIZE := by
  induction buf using drainFrames.induct with
  | case1 buf h ih =>
      rw [drainFrames]
      simp only [dif_pos h]
      intro c hc
      rcases List.mem_cons.mp hc with hc | hc
      · subst hc
        simpa [List.length_take] using Nat.min_eq_left h
      · exact ih c hc
  | case2 buf h =>
      rw [drainFrames]
      simp [dif_neg h]

theorem drainFrames_rest_lt (buf : List Nat) :
    (drainFrames buf).1.length < FRAME_CHUNK_SIZE := by
  induction buf using drainFrames.induct with
  | case1 buf h ih =>
      rw [drainFrames]
      simpa [dif_pos h] using ih
  | case2 buf h =>
      rw [drainFrames]
      simp only [dif_neg h]
      omega

/-- Invariant carried while audio messages are processed with the client
socket open. -/
def chunkInv (frags : List (List Nat)) (s : SimpleState) : Prop :=
  s.clientOpen = true
    ∧ (∀ f ∈ s.sentFrames, f.length = FRAME_CHUNK_SIZE)
    ∧ s.frameBuffer.length < FRAME_CHUNK_SIZE
    ∧ s.sentFrames.flatten ++ s.frameBuffer = frags.flatten

theorem chunkInv_step (frags : List (List Nat)) (s : SimpleState) (bytes : List Nat)
    (h : chunkInv frags s) :
    chunkInv (frags ++ [bytes]) (simpleHandleMessage s (audioMsg bytes)) := by
  obtain ⟨hopen, hsize, hlt, hacc⟩ := h
  have hstep : simpleHandleMessage s (audioMsg bytes)
      = { s with frameBuffer := (drainFrames (s.frameBuffer ++ bytes)).1,
                 sentFrames := s.sentFrames ++ (drainFrames (s.frameBuffer ++ bytes)).2 } := by
    simp [simpleHandleMessage, audioMsg, simpleAddAudio, hopen]
  rw [hstep]
  refine ⟨hopen, ?_, ?_, ?_⟩
  · intro f hf
    rcases List.mem_append.mp hf with hf | hf
    · exact hsize f hf
    · exact drainFrames_chunk_size _ f hf
  · exact drainFrames_rest_lt _
  · show (s.sentFrames ++ (drainFrames (s.frameBuffer ++ bytes)).2).flatten
        ++ (drainFrames (s.frameBuffer ++ bytes)).1 = (frags ++ [bytes]).flatten
    simp only [List.flatten_append]
    rw [List.append_assoc, drainFrames_flatten, ← List.append_assoc, hacc]
    simp

theorem chunkInv_run (frags : List (List Nat)) :
    chunkInv frags (runSimple simpleInit (frags.map audioMsg)) := by
  suffices h : ∀ (post pre : List (List Nat)) (s : SimpleState), chunkInv pre s →
      chunkInv (pre ++ post) (runSimple s (post.map audioMsg)) by
    have := h frags [] simpleInit (by
      refine ⟨rfl, ?_, ?_, ?_⟩ <;> simp [simpleInit, FRAME_CHUNK_SIZE])
    simpa using this
  intro post
  induction post with
  | nil => intro pre s hs; simpa [runSimple] using hs
  | cons b bs ih =>
      intro pre s hs
      have h1 := chunkInv_step pre s b hs
      have := ih (pre ++ [b]) (simpleHandleMessage s (audioMsg b)) h1
      simpa [runSimple, List.append_assoc] using this

theorem simpleFinal_sentFrames (s : SimpleState) (hopen : s.clientOpen = true) :
    (simpleFinal s).sentFrames
      = s.sentFrames ++ (if s.frameBuffer = [] then [] else [s.frameBuffer]) := by
  by_cases hb : s.frameBuffer = [] <;>
    by_cases hc : s.isCompleted <;>
      simp [simpleFinal, hb, hc, hopen]

/-- C9: in the direct-relay mode, decoded provider audio is re-chunked: with
the client socket open throughout, every binary frame sent before `is_final`
is exactly 6144 bytes; the remainder (shorter than 6144 bytes) is withheld
until `is_final`, when it is sent as one final frame (if nonempty); and the
concatenation of all sent frames equals the concatenation of the hex-decoded
provider fragments. -/
theorem C9_frame_rechunking (frags : List (List Nat)) :
    (∀ f ∈ (runSimple simpleInit (frags.map audioMsg)).sentFrames, f.length = 6144)
      ∧ (runSimple simpleInit (frags.map audioMsg)).frameBuffer.length < 6144
      ∧ (simpleHandleMessage (runSimple simpleInit (frags.map audioMsg)) finalMsg).sentFrames
          = (runSimple simpleInit (frags.map audioMsg)).sentFrames
            ++ (if (runSimple simpleInit (frags.map audioMsg)).frameBuffer = [] then []
                else [(runSimple simpleInit (frags.map audioMsg)).frameBuffer])
      ∧ (simpleHandleMessage (runSimple simpleInit (frags.map audioMsg)) finalMsg).sentFrames.flatten
          = frags.flatten := by
  obtain ⟨hopen, hsize, hlt, hacc⟩ := chunkInv_run frags
  have hfin : simpleHandleMessage (runSimple simpleInit (frags.map audioMsg)) finalMsg
      = simpleFinal (runSimple simpleInit (frags.map audioMsg)) := by
    simp [simpleHandleMessage, finalMsg]
  have hsent := simpleFinal_sentFrames (runSimple simpleInit (frags.map audioMsg)) hopen
  refine ⟨hsize, hlt, by rw [hfin, hsent], ?_⟩
  rw [hfin, hsent]
  by_cases hb : (runSimple simpleInit (frags.map audioMsg)).frameBuffer = []
  · rw [hb] at hacc
    simpa [hb] using hacc
  · simpa [hb, List.flatten_append] using hacc

/-- The ways the completion path of one `synthesize` call can be invoked: the
`is_final` branch, the provider-socket `error` handler, and the 30-second
timeout (the provider `close` handler only logs in this service). -/
inductive SimpleSig where
  | finalSig
  | errorSig (msg : String)
  | timeoutSig
  deriving Repr, DecidableEq

def simpleApplySig (s : SimpleState) : SimpleSig → SimpleState
  | .finalSig => simpleFinal s
  | .errorSig m => simpleError s m
  | .timeoutSig => simpleTimeout s

theorem simpleApplySig_completed (s : SimpleState) (g : SimpleSig)
    (h : s.isCompleted = true) :
    (simpleApplySig s g).outcome = s.outcome ∧ (simpleApplySig s g).isCompleted = true := by
  cases g with
  | finalSig =>
      simp only [simpleApplySig]
      by_cases hb : s.frameBuffer = [] <;> by_cases hc : s.clientOpen = true <;>
        simp [simpleFinal, hb, hc, h]
  | errorSig m => simp [simpleApplySig, simpleError, h]
  | timeoutSig => simp [simpleApplySig, simpleTimeout, h]

theorem simpleApplySig_sets (s : SimpleState) (g : SimpleSig) :
    (simpleApplySig s g).isCompleted = true := by
  cases g with
  | finalSig =>
      simp only [simpleApplySig]
      by_cases hb : s.frameBuffer = [] <;> by_cases hc : s.clientOpen = true <;>
        by_cases hd : s.isCompleted <;> simp [simpleFinal, hb, hc, hd]
  | errorSig m =>
      simp only [simpleApplySig, simpleError]
      by_cases hd : s.isCompleted <;> simp [hd]
  | timeoutSig =>
      simp only [simpleApplySig, simpleTimeout]
      by_cases hd : s.isCompleted <;> simp [hd]

theorem simpleApplySig_first (g : SimpleSig) :
    (simpleApplySig simpleInit g).outcome.isSome = true := by
  cases g with
  | finalSig => rfl
  | errorSig m => rfl
  | timeoutSig => rfl

theorem simpleSigs_noop (s : SimpleState) (gs : List SimpleSig)
    (h : s.isCompleted = true) :
    (gs.foldl simpleApplySig s).outcome = s.outcome := by
  induction gs generalizing s with
  | nil => rfl
  | cons g gs ih =>
      obtain ⟨h1, h2⟩ := simpleApplySig_completed s g h
      simpa [h1] using ih (simpleApplySig s g) h2

end SimpleTts

namespace WsTts

/-- Session state of one `WebSocketTtsService.streamSynthesize` call: the
completion guard and promise outcome, the four byte-statistics counters
(`mmBytesIn`, `ffInBytes`, `ffOutBytes`, `wsSentBytes`), whether the ffmpeg
stdin pipe still accepts writes, the chunks written to ffmpeg stdin, the
binary chunks sent to the client socket, socket flags, and the control events
sent to the provider.  `clientOpen` stands for the active registered socket
being open (the `sessionSockets` lookup in `sendChunk`/`sendStats`). -/
structure WsState where
  isCompleted : Bool
  outcome : Option (Except String Unit)
  sessionIdSet : Bool
  taskStarted : Bool
  mmBytesIn : Nat
  ffInBytes : Nat
  ffOutBytes : Nat
  wsSentBytes : Nat
  stdinOpen : Bool
  stdinData : List (List Nat)
  sentChunks : List (List Nat)
  clientOpen : Bool
  minimaxClosed : Bool
  toProvider : List String
  deriving Repr

/-- Fresh state at the start of `streamSynthesize`. -/
def wsInit : WsState :=
  { isCompleted := false
    outcome := none
    sessionIdSet := false
    taskStarted := false
    mmBytesIn := 0
    ffInBytes := 0
    ffOutBytes := 0
    wsSentBytes := 0
    stdinOpen := true
    stdinData := []
    sentChunks := []
    clientOpen := true
    minimaxClosed := false
    toProvider := [] }

/-- Function `writeMp3Hex(hex)`: count the hex payload into `mmBytesIn` (half the hex
character count, i.e. the decoded byte count — `bytes` here is already the
decoded buffer), skip if stdin is closed, skip zero-byte buffers, otherwise
count into `ffInBytes` and write to the subprocess stdin (the backpressure
`drain` wait has no state effect). -/
def writeMp3Hex (s : WsState) (bytes : List Nat) : WsState :=
  let s1 := { s with mmBytesIn := s.mmBytesIn + bytes.length }
  if ¬ s1.stdinOpen then s1
  else if bytes.length = 0 then s1
  else { s1 with ffInBytes := s1.ffInBytes + bytes.length
                 stdinData := s1.stdinData ++ [bytes] }

/-- Function `sendChunk(buf)`: drop zero-byte buffers; if no open active socket is
registered, skip the send (the completion callback still runs); otherwise
send the buffer as a binary frame and count it into `wsSentBytes`. -/
def sendChunk (s : WsState) (buf : List Nat) : WsState :=
  if buf.length = 0 then s
  else if ¬ s.clientOpen then s
  else { s with sentChunks := s.sentChunks ++ [buf]
                wsSentBytes := s.wsSentBytes + buf.length }

/-- The ffmpeg stdout data handler: count every chunk into
`ffOutBytes`, then refuse to forward zero-byte chunks, else `sendChunk`. -/
def ffmpegStdoutData (s : WsState) (chunk : List Nat) : WsState :=
  let s1 := { s with ffOutBytes := s.ffOutBytes + chunk.length }
  if chunk.length = 0 then s1
  else sendChunk s1 chunk

/-- Function `cleanup()`: end ffmpeg stdin, kill the subprocess, close the provider
socket, clear the timeout. -/
def cleanup (s : WsState) : WsState :=
  { s with stdinOpen := false, minimaxClosed := true }

/-- Function `handleError(error)`: cleanup, then reject once under the guard. -/
def wsHandleError (s : WsState) (err : String) : WsState :=
  let s1 := cleanup s
  if s1.isCompleted then s1
  else { s1 with isCompleted := true, outcome := some (Except.error err) }

/-- Function `handleComplete()`: cleanup, then resolve once under the guard. -/
def wsHandleComplete (s : WsState) : WsState :=
  let s1 := cleanup s
  if s1.isCompleted then s1
  else { s1 with isCompleted := true, outcome := some (Except.ok ()) }

/-- The error text built in case 5 of the provider message handler:
`MiniMax 오류 (status_code): status_msg`, with the JS `undefined`
interpolation for an absent code and the `|| fallback` for a falsy message. -/
def wsErrMsg (code : Option Int) (msg : Option String) : String :=
  "MiniMax 오류 (" ++ (match code with | some c => toString c | none => "undefined")
    ++ "): "
    ++ (match msg with
        | some m => if m = "" then "알 수 없는 오류" else m
        | none => "알 수 없는 오류")

/-- The provider-socket `message` handler of `streamSynthesize`: cases 1-4
return early (`connected_success` → send `task_start`, `task_started` → send
`task_continue`, `task_continued` with data → `writeMp3Hex` and, on
`is_final`, `finalizeTranscode` (stdin end), `task_finished` → ignored); any
remaining message with event `task_failed` or `base_resp?.status_code !== 0`
(including an absent `base_resp`) triggers `handleError` with the propagated
status message. -/
def wsHandleMessage (s : WsState) (m : ProviderMsg) : WsState :=
  if m.event = "connected_success" then
    { s with sessionIdSet := true, toProvider := s.toProvider ++ ["task_start"] }
  else if m.event = "task_started" then
    { s with taskStarted := true, toProvider := s.toProvider ++ ["task_continue"] }
  else if m.event = "task_continued" ∧ m.hasData = true then
    let s1 := match m.audio with
      | some bytes => writeMp3Hex s bytes
      | none => s
    if m.isFinal then { s1 with stdinOpen := false } else s1
  else if m.event = "task_finished" then s
  else if m.event = "task_failed" ∨ m.statusCode ≠ some 0 then
    wsHandleError s (wsErrMsg m.statusCode m.statusMsg)
  else s

/-- C5: the Transcoding Bridge never forwards zero-byte payloads: a zero-byte
provider audio chunk is not written to the subprocess stdin and adds nothing
to the `mmBytesIn`/`ffInBytes` statistics counters, and a zero-byte
subprocess output chunk adds nothing to `ffOutBytes` and is never sent over
the client socket — in each case the session state is left exactly as it
was. -/
theorem C5_zero_byte_guard (s : WsState) :
    writeMp3Hex s [] = s ∧ ffmpegStdoutData s [] = s ∧ sendChunk s [] = s := by
  obtain ⟨a1, a2, a3, a4, a5, a6, a7, a8, a9, a10, a11, a12, a13, a14⟩ := s
  refine ⟨?_, ?_, ?_⟩
  · by_cases h : a9 <;> simp [writeMp3Hex, h]
  · simp [ffmpegStdoutData]
  · rfl

/-- C4 (amended), part 1: in the transcoding mode
(`WebSocketTtsService.streamSynthesize`), a provider message whose
`base_resp.status_code` is non-zero (e.g. a `task_failed` event) fails the
session immediately: the promise is rejected with an error propagating the
provider status message, resources are torn down, and no audio for that
message is written to the subprocess or sent to the client. -/
theorem C4_ws_status_code_rejects (c : Int) (msg : String) (hc : c ≠ 0) (hm : msg ≠ "") :
    (wsHandleMessage wsInit ⟨"task_failed", false, none, false, some c, some msg⟩).outcome
        = some (Except.error ("MiniMax 오류 (" ++ toString c ++ "): " ++ msg))
      ∧ (wsHandleMessage wsInit ⟨"task_failed", false, none, false, some c, some msg⟩).isCompleted
          = true
      ∧ (wsHandleMessage wsInit ⟨"task_failed", false, none, false, some c, some msg⟩).stdinData
          = []
      ∧ (wsHandleMessage wsInit ⟨"task_failed", false, none, false, some c, some msg⟩).sentChunks
          = [] := by
  have hmsg : wsHandleMessage wsInit ⟨"task_failed", false, none, false, some c, some msg⟩
      = wsHandleError wsInit (wsErrMsg (some c) (some msg)) := by
    simp [wsHandleMessage]
  rw [hmsg]
  have herr : wsErrMsg (some c) (some msg) = "MiniMax 오류 (" ++ toString c ++ "): " ++ msg := by
    simp [wsErrMsg, hm]
  rw [wsHandleError, herr]
  refine ⟨rfl, rfl, rfl, rfl⟩

/-- Witness for the amended C4 statement at the spec's scenario E input:
status code 1004 with a provider auth-failure message. -/
theorem C4_ws_status_code_rejects_witness :
    (wsHandleMessage wsInit ⟨"task_failed", false, none, false, some 1004,
        some "invalid api key"⟩).outcome
      = some (Except.error "MiniMax 오류 (1004): invalid api key") :=
  (C4_ws_status_code_rejects 1004 "invalid api key" (by decide)
    (by simp)).1

/-- The ways the completion path of one `streamSynthesize` call is invoked:
`handleError` (provider socket error, parse failure, 30-second timeout) and
`handleComplete` (drained `is_final` path via the ffmpeg close continuation,
provider socket close). -/
inductive WsSig where
  | errorSig (msg : String)
  | completeSig
  deriving Repr, DecidableEq

def wsApplySig (s : WsState) : WsSig → WsState
  | .errorSig m => wsHandleError s m
  | .completeSig => wsHandleComplete s

theorem wsApplySig_completed (s : WsState) (g : WsSig) (h : s.isCompleted = true) :
    (wsApplySig s g).outcome = s.outcome ∧ (wsApplySig s g).isCompleted = true := by
  cases g with
  | errorSig m => simp [wsApplySig, wsHandleError, cleanup, h]
  | completeSig => simp [wsApplySig, wsHandleComplete, cleanup, h]

theorem wsApplySig_sets (s : WsState) (g : WsSig) :
    (wsApplySig s g).isCompleted = true := by
  cases g with
  | errorSig m =>
      simp only [wsApplySig, wsHandleError]
      by_cases h : s.isCompleted <;> simp [cleanup, h]
  | completeSig =>
      simp only [wsApplySig, wsHandleComplete]
      by_cases h : s.isCompleted <;> simp [cleanup, h]

theorem wsSigs_noop (s : WsState) (gs : List WsSig) (h : s.isCompleted = true) :
    (gs.foldl wsApplySig s).outcome = s.outcome := by
  induction gs generalizing s with
  | nil => rfl
  | cons g gs ih =>
      obtain ⟨h1, h2⟩ := wsApplySig_completed s g h
      simpa [h1] using ih (wsApplySig s g) h2

/-- C8: for a synthesis session in either mode, invoking the completion path
more than once — any order and combination of the `is_final` path, provider
socket error, provider socket close, and the 30-second timeout — settles the
caller's promise exactly once: the first invocation resolves or rejects it,
and the promise outcome is unchanged by every later invocation.  (In the
direct-relay service the provider `close` handler only logs, so its
completion invocations are the `is_final` branch, the `error` handler and the
timeout; in the transcoding service all signals funnel through `handleError`
and `handleComplete`.) -/
theorem C8_completion_idempotent (g : WsSig) (gs : List WsSig)
    (h : SimpleTts.SimpleSig) (hs : List SimpleTts.SimpleSig) :
    ((gs.foldl wsApplySig (wsApplySig wsInit g)).outcome = (wsApplySig wsInit g).outcome
        ∧ (wsApplySig wsInit g).outcome.isSome = true)
      ∧ ((hs.foldl SimpleTts.simpleApplySig
            (SimpleTts.simpleApplySig SimpleTts.simpleInit h)).outcome
          = (SimpleTts.simpleApplySig SimpleTts.simpleInit h).outcome
        ∧ (SimpleTts.simpleApplySig SimpleTts.simpleInit h).outcome.isSome = true) := by
  refine ⟨⟨?_, ?_⟩, ⟨?_, ?_⟩⟩
  · exact wsSigs_noop _ gs (wsApplySig_sets wsInit g)
  · cases g with
    | errorSig m => rfl
    | completeSig => rfl
  · exact SimpleTts.simpleSigs_noop _ hs (SimpleTts.simpleApplySig_sets SimpleTts.simpleInit h)
  · exact SimpleTts.simpleApplySig_first h

end WsTts

namespace Registry

/-- Life state of a client socket, identified by a numeric id.  `close()` with
no arguments yields `closedWith none` (the runtime default code, nothing
distinguishing); `close(4000, ...)` yields `closedWith (some 4000)`. -/
inductive SockLife where
  | opened
  | closedWith (code : Option Nat)
  deriving Repr, DecidableEq

/-- World state for `WebSocketTtsService`: each socket's life state plus the
`sessionSockets` map (sessionId → registered socket). -/
structure RegState where
  life : Nat → SockLife
  sessionSockets : String → Option Nat

/-- Function `registerClient(ws, sessionId)`: if a different socket is registered for
the session and still open, close it with the supersede code
4000 ("superseded-by-new-connection"); then store the new socket. -/
def registerClient (w : RegState) (ws : Nat) (sessionId : String) : RegState :=
  let w1 := match w.sessionSockets sessionId with
    | some existingWs =>
        if existingWs ≠ ws ∧ w.life existingWs = SockLife.opened then
          { w with life := fun n =>
              if n = existingWs then SockLife.closedWith (some 4000) else w.life n }
        else w
    | none => w
  { w1 with sessionSockets := fun k =>
      if k = sessionId then some ws else w1.sessionSockets k }

/-- The close listener attached by `registerClient`: remove the map entry only
if the closing socket is still the currently registered one (identity
comparison `sessionSockets.get(sessionId) === ws`). -/
def registerClientCloseEvt (w : RegState) (ws : Nat) (sessionId : String) : RegState :=
  if w.sessionSockets sessionId = some ws then
    { w with sessionSockets := fun k =>
        if k = sessionId then none else w.sessionSockets k }
  else w

/-- The per-connection `connectionInfo` record of websocket.ts. -/
structure TtsConnection where
  ws : Nat
  sessionId : String
  isProcessing : Bool
  deriving Repr, DecidableEq

/-- World state for websocket.ts: socket life states plus the module-level
`activeConnections` map (sessionId → TtsConnection). -/
structure ActiveConns where
  life : Nat → SockLife
  activeConnections : String → Option TtsConnection

/-- The registration step inside the `init` handler of websocket.ts: if a
connection exists for the session, call `existingConnection.ws.close()` (no
close code) and delete the entry; then store the new connection (with
`isProcessing := false`). -/
def initRegister (w : ActiveConns) (ws : Nat) (sessionId : String) : ActiveConns :=
  let w1 := match w.activeConnections sessionId with
    | some existing =>
        { w with
          life := fun n =>
            if n = existing.ws then
              (match w.life existing.ws with
               | SockLife.opened => SockLife.closedWith none
               | c => c)
            else w.life n
          activeConnections := fun k =>
            if k = sessionId then none else w.activeConnections k }
    | none => w
  { w1 with activeConnections := fun k =>
      if k = sessionId then some ⟨ws, sessionId, false⟩ else w1.activeConnections k }

/-- The ws close-event handler of websocket.ts: delete the
`activeConnections` entry for the connection's sessionId unconditionally (no
identity comparison against the currently registered connection).  The event
fires after the socket has transitioned to closed. -/
def wsCloseHandler (w : ActiveConns) (connectionInfo : TtsConnection) : ActiveConns :=
  { w with activeConnections := fun k =>
      if k = connectionInfo.sessionId then none else w.activeConnections k }

/-- C6, counterexample: in the websocket.ts registry (`activeConnections`,
the init-handler supersession the claim cites), registering s2 for a session
already held by an open s1 closes s1 with `ws.close()` and NO close code at
all — there is no distinguishing supersede close code, contradicting the
claim as stated.  (`lookup` does return s2.) -/
theorem C6_counterexample :
    (initRegister (initRegister ⟨fun _ => SockLife.opened, fun _ => none⟩ 1 "session-a")
        2 "session-a").activeConnections "session-a" = some ⟨2, "session-a", false⟩
      ∧ (initRegister (initRegister ⟨fun _ => SockLife.opened, fun _ => none⟩ 1 "session-a")
          2 "session-a").life 1 = SockLife.closedWith none
      ∧ ∀ c : Nat,
          (initRegister (initRegister ⟨fun _ => SockLife.opened, fun _ => none⟩ 1 "session-a")
            2 "session-a").life 1 ≠ SockLife.closedWith (some c) := by
  refine ⟨by decide, by decide, ?_⟩
  intro c hc
  have h2 : (initRegister (initRegister ⟨fun _ => SockLife.opened, fun _ => none⟩ 1 "session-a")
      2 "session-a").life 1 = SockLife.closedWith none := by decide
  rw [h2] at hc
  simp at hc

/-- C6 (amended): after register(s1, id) then register(s2, id) with s1 still
open, lookup(id) returns s2 in both registries and s1 has been closed in
both; in `WebSocketTtsService.registerClient` s1 is closed with the
distinguishing supersede code 4000 ("superseded-by-new-connection"), while in
the websocket.ts init handler s1 is closed by a plain `close()` carrying no
distinguishing code. -/
theorem C6_register_supersedes (w : RegState) (v : ActiveConns) (s1 s2 : Nat) (id : String)
    (hw : w.sessionSockets id = none) (hopen : w.life s1 = SockLife.opened)
    (hne : s1 ≠ s2)
    (hv : v.activeConnections id = none) (hvopen : v.life s1 = SockLife.opened) :
    (registerClient (registerClient w s1 id) s2 id).sessionSockets id = some s2
      ∧ (registerClient (registerClient w s1 id) s2 id).life s1
          = SockLife.closedWith (some 4000)
      ∧ (initRegister (initRegister v s1 id) s2 id).activeConnections id = some ⟨s2, id, false⟩
      ∧ (initRegister (initRegister v s1 id) s2 id).life s1 = SockLife.closedWith none := by
  have hw1 : registerClient w s1 id
      = { w with sessionSockets := fun k => if k = id then some s1 else w.sessionSockets k } := by
    simp [registerClient, hw]
  have hv1 : initRegister v s1 id
      = { v with activeConnections := fun k =>
            if k = id then some ⟨s1, id, false⟩ else v.activeConnections k } := by
    simp [initRegister, hv]
  refine ⟨?_, ?_, ?_, ?_⟩
  · rw [hw1]
    simp [registerClient, hne, hopen]
  · rw [hw1]
    simp [registerClient, hne, hopen]
  · rw [hv1]
    simp [initRegister]
  · rw [hv1]
    simp [initRegister, hvopen]

/-- Witness for the amended C6 statement at concrete worlds and sockets. -/
theorem C6_register_supersedes_witness :
    (registerClient (registerClient ⟨fun _ => SockLife.opened, fun _ => none⟩ 1 "s") 2
        "s").sessionSockets "s" = some 2
      ∧ (registerClient (registerClient ⟨fun _ => SockLife.opened, fun _ => none⟩ 1 "s") 2
          "s").life 1 = SockLife.closedWith (some 4000)
      ∧ (initRegister (initRegister ⟨fun _ => SockLife.opened, fun _ => none⟩ 1 "s") 2
          "s").activeConnections "s" = some ⟨2, "s", false⟩
      ∧ (initRegister (initRegister ⟨fun _ => SockLife.opened, fun _ => none⟩ 1 "s") 2
          "s").life 1 = SockLife.closedWith none :=
  C6_register_supersedes ⟨fun _ => SockLife.opened, fun _ => none⟩
    ⟨fun _ => SockLife.opened, fun _ => none⟩ 1 2 "s" rfl rfl (by decide) rfl rfl

/-- C7, counterexample: in the websocket.ts registry the claim cites, a stale
socket's close event DOES remove a newer registration: after s1 then s2
register for the same session, the close event of superseded s1 deletes the
entry, leaving the still-open s2 unregistered — the handler deletes by key
with no identity comparison. -/
theorem C7_counterexample :
    (initRegister (initRegister ⟨fun _ => SockLife.opened, fun _ => none⟩ 1 "session-a")
        2 "session-a").activeConnections "session-a" = some ⟨2, "session-a", false⟩
      ∧ (initRegister (initRegister ⟨fun _ => SockLife.opened, fun _ => none⟩ 1 "session-a")
          2 "session-a").life 2 = SockLife.opened
      ∧ (wsCloseHandler
          (initRegister (initRegister ⟨fun _ => SockLife.opened, fun _ => none⟩ 1 "session-a")
            2 "session-a")
          ⟨1, "session-a", false⟩).activeConnections "session-a" = none := by
  refine ⟨by decide, by decide, by decide⟩

/-- C7 (amended): the close-only-if-current teardown holds for the
`sessionSockets` registry of `WebSocketTtsService.registerClient`, whose close
listener removes the entry only when the closing socket is still the
registered one — so a stale close never removes a newer registration there;
the websocket.ts `activeConnections` close handler, by contrast, deletes by
key unconditionally. -/
theorem C7_registerClient_close_guard (w : RegState) (ws s1 s2 : Nat) (sessionId id : String)
    (hne : s1 ≠ s2)
    (hcur : w.sessionSockets sessionId ≠ some ws) :
    (registerClientCloseEvt (registerClient (registerClient w s1 id) s2 id) s1 id).sessionSockets
        id = some s2
      ∧ registerClientCloseEvt w ws sessionId = w := by
  constructor
  · have h2 : (registerClient (registerClient w s1 id) s2 id).sessionSockets id = some s2 := by
      simp [registerClient]
    rw [registerClientCloseEvt, h2]
    simp [hne.symm, h2]
  · simp [registerClientCloseEvt, hcur]

/-- Witness for the amended C7 statement at a concrete world. -/
theorem C7_registerClient_close_guard_witness :
    (registerClientCloseEvt
        (registerClient (registerClient ⟨fun _ => SockLife.opened, fun _ => none⟩ 1 "s") 2 "s")
        1 "s").sessionSockets "s" = some 2 :=
  (C7_registerClient_close_guard ⟨fun _ => SockLife.opened, fun _ => none⟩ 7 1 2 "t" "s"
    (by decide) (by decide)).1

end Registry

namespace WsServer

/-- A stored session row, as far as the websocket handlers read it
(`storage.getSession` result: id and the cloned voice id). -/
structure SessionRec where
  id : String
  clonedVoiceId : Option String
  deriving Repr, DecidableEq

/-- JS `String.prototype.startsWith`, modelled as a character-list prefix test
(so that it evaluates by kernel reduction). -/
def startsWithStr (s p : String) : Bool :=
  p.data.isPrefixOf s.data

/-- The test-session bypass predicate used identically in the init and speak
handlers of websocket.ts. -/
def isTestSession (sessionId : String) : Bool :=
  sessionId = "test-session-123"
    || startsWithStr sessionId "test-streaming-"
    || startsWithStr sessionId "test-session-"

/-- JSON control messages the server sends to the client socket. -/
inductive Reply where
  | ready (voiceId : String)
  | pendingReply (message : String)
  | errorReply (message : String)
  deriving Repr, DecidableEq

/-- Outcome of the `init` handler: an error reply followed by `ws.close()`,
or a registration carrying the effective voice id and the ready/pending
reply. -/
inductive InitOutcome where
  | errClose (message : String)
  | registered (voiceId : Option String) (reply : Reply)
  deriving Repr, DecidableEq

/-- The `init` message handler of websocket.ts: reject a falsy sessionId;
look the session up; apply the test-session bypass (forcing voiceId
"Korean_PowerfulGirl" and a synthetic session); reject an unknown session;
otherwise register and answer `ready` (voice cloned) or `pending`. -/
def initHandle (getSession : String → Option SessionRec) (sessionId : String) : InitOutcome :=
  if sessionId = "" then .errClose "세션 ID가 필요합니다."
  else
    let session0 := getSession sessionId
    let voiceId0 := session0.bind (fun s => s.clonedVoiceId)
    let bypass := isTestSession sessionId
    let session := if bypass then some (⟨sessionId, some "Korean_PowerfulGirl"⟩ : SessionRec)
      else session0
    let voiceId := if bypass then some "Korean_PowerfulGirl" else voiceId0
    match session with
    | none => .errClose "유효하지 않은 세션입니다."
    | some _ =>
        match voiceId with
        | some v => .registered voiceId (.ready v)
        | none => .registered voiceId (.pendingReply "음성 클로닝이 완료되면 사용할 수 있습니다.")

/-- The per-socket `connectionInfo` as the speak handler reads it. -/
structure TtsConnectionInfo where
  sessionId : String
  isProcessing : Bool
  deriving Repr, DecidableEq

/-- Result of one run of the speak/synthesize handler: the connection state
afterwards, the JSON replies sent, the number of provider connections opened
(`simpleTtsService.synthesize` instantiates exactly one provider socket per
call), the voice id passed to synthesis, and whether `ws.close()` ran. -/
structure SpeakResult where
  conn : Option TtsConnectionInfo
  replies : List Reply
  providerOpens : Nat
  usedVoiceId : Option String
  closedClient : Bool
  deriving Repr, DecidableEq

/-- The `speak`/`synthesize` branch of the websocket.ts message handler:
reject when no connection is initialized; reject while `isProcessing` is true
(explicit JSON error, nothing queued, no synthesis started); reject falsy
text; re-validate the session with the test bypass; reject a vanished session
or voice (and close); otherwise set `isProcessing := true` and start the
synthesis call, opening one provider connection. -/
def handleSpeak (getSession : String → Option SessionRec)
    (conn : Option TtsConnectionInfo) (text : String) : SpeakResult :=
  match conn with
  | none => ⟨none, [.errorReply "연결이 초기화되지 않았습니다."], 0, none, false⟩
  | some ci =>
    if ci.isProcessing then
      ⟨some ci, [.errorReply "다른 TTS 작업이 진행 중입니다."], 0, none, false⟩
    else if text = "" then
      ⟨some ci, [.errorReply "텍스트가 필요합니다."], 0, none, false⟩
    else
      let session0 := getSession ci.sessionId
      let voiceId0 := session0.bind (fun s => s.clonedVoiceId)
      let bypass := isTestSession ci.sessionId
      let session := if bypass then some (⟨ci.sessionId, some "Korean_PowerfulGirl"⟩ : SessionRec)
        else session0
      let voiceId := if bypass then some "Korean_PowerfulGirl" else voiceId0
      match session, voiceId with
      | some _, some v => ⟨some { ci with isProcessing := true }, [], 1, some v, false⟩
      | some _, none => ⟨some ci, [.errorReply "세션이 삭제되었거나 음성이 없습니다."], 0, none, true⟩
      | none, _ => ⟨some ci, [.errorReply "세션이 삭제되었거나 음성이 없습니다."], 0, none, true⟩

/-- The `finally` block around the synthesis call: clear `isProcessing` when
the call resolves or rejects. -/
def finishSynthesis (ci : TtsConnectionInfo) : TtsConnectionInfo :=
  { ci with isProcessing := false }

/-- The voice id the speak handler's validation computes: the bypass value for
test sessions, otherwise the stored session's cloned voice. -/
def effectiveVoice (getSession : String → Option SessionRec) (sessionId : String) :
    Option String :=
  if isTestSession sessionId then some "Korean_PowerfulGirl"
  else (getSession sessionId).bind (fun s => s.clonedVoiceId)

theorem isTestSession_ne_empty (sessionId : String)
    (h : isTestSession sessionId = true) : ¬ sessionId = "" := by
  intro he
  subst he
  exact absurd h (by decide)

theorem handleSpeak_accepts (getSession : String → Option SessionRec)
    (ci : TtsConnectionInfo) (text v : String)
    (hproc : ci.isProcessing = false) (htext : ¬ text = "")
    (hv : effectiveVoice getSession ci.sessionId = some v) :
    handleSpeak getSession (some ci) text
      = ⟨some { ci with isProcessing := true }, [], 1, some v, false⟩ := by
  by_cases hb : isTestSession ci.sessionId = true
  · have hv2 : v = "Korean_PowerfulGirl" := by
      rw [effectiveVoice, if_pos hb] at hv
      exact (Option.some_inj.mp hv).symm
    subst hv2
    simp [handleSpeak, hproc, htext, hb]
  · rw [effectiveVoice, if_neg hb] at hv
    cases hs : getSession ci.sessionId with
    | none => rw [hs] at hv; simp at hv
    | some srec =>
        rw [hs] at hv
        simp only [Option.some_bind] at hv
        simp [handleSpeak, hproc, htext, hb, hs, hv]

/-- C2: for every Streaming Synthesis Session, (i) a speak/synthesize message
arriving while `isProcessing` is true is answered with exactly one explicit
JSON error control message, leaves the connection state unchanged, starts no
synthesis and opens no provider connection; (ii) a speak accepted while
`isProcessing` is false (nonempty text, valid session/voice) sets
`isProcessing` to true and opens exactly one provider connection; (iii)
`isProcessing` becomes false exactly when the synthesis call resolves or
rejects (the `finally` block). -/
theorem C2_isProcessing_mutex (getSession : String → Option SessionRec)
    (ci : TtsConnectionInfo) (text : String) (v : String) :
    (ci.isProcessing = true →
        handleSpeak getSession (some ci) text
          = ⟨some ci, [Reply.errorReply "다른 TTS 작업이 진행 중입니다."], 0, none, false⟩)
      ∧ (ci.isProcessing = false → ¬ text = "" →
          effectiveVoice getSession ci.sessionId = some v →
          handleSpeak getSession (some ci) text
            = ⟨some { ci with isProcessing := true }, [], 1, some v, false⟩)
      ∧ (finishSynthesis ci).isProcessing = false := by
  refine ⟨?_, ?_, rfl⟩
  · intro h
    simp [handleSpeak, h]
  · exact handleSpeak_accepts getSession ci text v

/-- Witness for C2: a busy connection rejects a second speak; an idle test
connection accepts and opens one provider connection. -/
theorem C2_isProcessing_mutex_witness :
    handleSpeak (fun _ => none) (some ⟨"test-session-123", true⟩) "hello"
        = ⟨some ⟨"test-session-123", true⟩,
            [Reply.errorReply "다른 TTS 작업이 진행 중입니다."], 0, none, false⟩
      ∧ handleSpeak (fun _ => none) (some ⟨"test-session-123", false⟩) "hello"
          = ⟨some ⟨"test-session-123", true⟩, [], 1, some "Korean_PowerfulGirl", false⟩ :=
  ⟨(C2_isProcessing_mutex (fun _ => none) ⟨"test-session-123", true⟩ "hello"
      "Korean_PowerfulGirl").1 rfl,
   (C2_isProcessing_mutex (fun _ => none) ⟨"test-session-123", false⟩ "hello"
      "Korean_PowerfulGirl").2.1 rfl (by decide) (by decide)⟩

/-- C10: for every init or speak message whose sessionId is
"test-session-123" or begins with "test-streaming-" or "test-session-", the
server bypasses session validation entirely: init registers the connection
and answers `ready` with voiceId "Korean_PowerfulGirl" regardless of what the
storage returns (including no session at all), and an idle connection's speak
request is accepted with that voice id, opening a provider connection. -/
theorem C10_test_session_bypass (getSession : String → Option SessionRec)
    (sessionId text : String) (ci : TtsConnectionInfo)
    (htest : isTestSession sessionId = true) :
    initHandle getSession sessionId
        = .registered (some "Korean_PowerfulGirl") (.ready "Korean_PowerfulGirl")
      ∧ (ci.sessionId = sessionId → ci.isProcessing = false → ¬ text = "" →
          handleSpeak getSession (some ci) text
            = ⟨some { ci with isProcessing := true }, [], 1, some "Korean_PowerfulGirl", false⟩) := by
  constructor
  · have hne := isTestSession_ne_empty sessionId htest
    simp [initHandle, hne, htest]
  · intro hsid hproc htext
    refine handleSpeak_accepts getSession ci text "Korean_PowerfulGirl" hproc htext ?_
    rw [effectiveVoice, hsid, if_pos htest]

/-- Witness for C10 at a concrete test sessionId with empty storage. -/
theorem C10_test_session_bypass_witness :
    initHandle (fun _ => none) "test-streaming-1"
        = .registered (some "Korean_PowerfulGirl") (.ready "Korean_PowerfulGirl")
      ∧ handleSpeak (fun _ => none) (some ⟨"test-streaming-1", false⟩) "hi"
          = ⟨some ⟨"test-streaming-1", true⟩, [], 1, some "Korean_PowerfulGirl", false⟩ :=
  ⟨(C10_test_session_bypass (fun _ => none) "test-streaming-1" "hi"
      ⟨"test-streaming-1", false⟩ (by decide)).1,
   (C10_test_session_bypass (fun _ => none) "test-streaming-1" "hi"
      ⟨"test-streaming-1", false⟩ (by decide)).2 rfl rfl (by decide)⟩

end WsServer
